import Mathlib

/-!
Verification of the account-getter layer of the TDAmeritradeAPI client
(`src/get/account.cpp`): a shallow embedding of the getter classes
(construction, field setters, URL building) and of the C-ABI wrappers,
together with theorems about validation and URL-consistency behaviour.

Helper utilities (`util::url_encode`, `util::build_encoded_query_str`,
`util::toupper`, `util::join`, `util::is_valid_iso8601_datetime`), the URL
base constants, the `TransactionType` / `OrderStatusType` enum declarations
and the ABI `CHECK_*` macros are declared outside the translated source
file; those are modelled from the specification and marked as such.
-/

/-- Modelled from the spec: opaque credentials handle, owned by the caller,
borrowed by every getter and never mutated here; its definition is outside
the translated source file. -/
abbrev Credentials := Unit

/-- Error raised by the getter layer (`TDMA_API_THROW(ValueException, msg)`
in the source; the spec calls this class of failures `InvalidArgument`). -/
inductive ApiErr
  | valueException (msg : String)
  deriving DecidableEq

/-- Hexadecimal digit character for a value below 16 (upper case). -/
def hexChar (n : Nat) : Char :=
  if n < 10 then Char.ofNat (48 + n) else Char.ofNat (55 + n)

/-- Modelled from the spec: percent-encoding of a single character per
RFC 3986 — unreserved characters (alphanumeric and `-`, `.`, `_`, `~`)
pass through, everything else becomes a percent escape (space as a percent
escape, never a plus). The `util::url_encode` source is outside the
translated file. -/
def url_encode_char (c : Char) : String :=
  if c.isAlphanum || c == '-' || c == '.' || c == '_' || c == '~' then
    String.singleton c
  else
    let n := c.toNat % 256
    String.singleton '%' ++ String.singleton (hexChar (n / 16)) ++
      String.singleton (hexChar (n % 16))

/-- Modelled from the spec: `util::url_encode`, percent-encoding each
character of the string independently. -/
def url_encode (s : String) : String :=
  String.join (s.data.map url_encode_char)

/-- Modelled from the spec: `util::join`, joining a list of strings with a
single separator character. -/
def joinWith (xs : List String) (c : Char) : String :=
  match xs with
  | [] => ""
  | [x] => x
  | x :: y :: rest => x ++ String.singleton c ++ joinWith (y :: rest) c

/-- Modelled from the spec: `util::build_encoded_query_str` — from an
ordered list of (key, value) pairs, drop every pair whose value is empty,
percent-encode key and value independently, render each pair as
`key=value` and join the pairs with ampersands, preserving input order. -/
def build_encoded_query_str (params : List (String × String)) : String :=
  joinWith
    ((params.filter (fun p => decide (p.2 ≠ ""))).map
      (fun p => url_encode p.1 ++ "=" ++ url_encode p.2)) '&'

/-- Modelled from the spec: `util::toupper`, upper-casing every character
of the string. -/
def toupper (s : String) : String :=
  String.mk (s.data.map Char.toUpper)

/-- Accumulator-style decimal digit rendering used by `nat_to_string`. -/
def natDigitsAux (n : Nat) (acc : List Char) : List Char :=
  if h : n = 0 then acc
  else natDigitsAux (n / 10) (Char.ofNat (48 + n % 10) :: acc)
  termination_by n
  decreasing_by exact Nat.div_lt_self (Nat.pos_of_ne_zero h) (by decide)

/-- Modelled from the spec: decimal rendering of the unsigned
`nmax_results` value (`std::to_string` on an unsigned int). -/
def nat_to_string (n : Nat) : String :=
  if n = 0 then "0" else String.mk (natDigitsAux n [])

/-- Gregorian leap-year test, used by the ISO-8601 validator model. -/
def isLeapYear (y : Nat) : Bool :=
  (y % 4 == 0 && y % 100 != 0) || y % 400 == 0

/-- Number of days in a month, used by the ISO-8601 validator model. -/
def daysInMonth (y m : Nat) : Nat :=
  if m == 2 then (if isLeapYear y then 29 else 28)
  else if m == 4 || m == 6 || m == 9 || m == 11 then 30
  else 31

/-- Two-digit decimal value of a pair of digit characters. -/
def digit2 (a b : Char) : Nat :=
  (a.toNat - 48) * 10 + (b.toNat - 48)

/-- Valid trailing timezone designator of an ISO-8601 date-time: nothing,
`Z`, or a `+`/`-` hour-minute offset. -/
def validZone : List Char → Bool
  | [] => true
  | ['Z'] => true
  | ['+', h1, h2, ':', m1, m2] =>
      [h1, h2, m1, m2].all Char.isDigit && digit2 h1 h2 < 24 && digit2 m1 m2 < 60
  | ['-', h1, h2, ':', m1, m2] =>
      [h1, h2, m1, m2].all Char.isDigit && digit2 h1 h2 < 24 && digit2 m1 m2 < 60
  | _ => false

/-- Valid remainder of an ISO-8601 time after the seconds field: optional
fractional seconds, then an optional timezone designator. -/
def validTimeSuffix (l : List Char) : Bool :=
  match l with
  | '.' :: rest =>
      !(rest.takeWhile Char.isDigit).isEmpty &&
        validZone (rest.dropWhile Char.isDigit)
  | _ => validZone l

/-- Valid optional ISO-8601 time part following a complete calendar date:
nothing, or `T` followed by `HH:MM:SS` within range and a valid suffix. -/
def validTimePart : List Char → Bool
  | [] => true
  | 'T' :: h1 :: h2 :: ':' :: mi1 :: mi2 :: ':' :: s1 :: s2 :: rest =>
      [h1, h2, mi1, mi2, s1, s2].all Char.isDigit &&
      digit2 h1 h2 < 24 && digit2 mi1 mi2 < 60 && digit2 s1 s2 < 60 &&
      validTimeSuffix rest
  | _ => false

/-- Modelled from the spec: `util::is_valid_iso8601_datetime` — true iff
the string parses as a complete ISO-8601 calendar date `YYYY-MM-DD`
(month and day within range) or such a date followed by a valid time
part. The empty string is not a valid date; the validator source is
outside the translated file. -/
def is_valid_iso8601_datetime (s : String) : Bool :=
  match s.data with
  | y1 :: y2 :: y3 :: y4 :: '-' :: m1 :: m2 :: '-' :: d1 :: d2 :: rest =>
      ([y1, y2, y3, y4].all Char.isDigit) &&
      m1.isDigit && m2.isDigit && d1.isDigit && d2.isDigit &&
      (let y := digit2 y1 y2 * 100 + digit2 y3 y4
       let m := digit2 m1 m2
       let d := digit2 d1 d2
       decide (1 ≤ m) && decide (m ≤ 12) && decide (1 ≤ d) &&
         decide (d ≤ daysInMonth y m)) &&
      validTimePart rest
  | _ => false

/-- Modelled from the spec: the fixed resource base-path prefix (the spec
gives every path relative to a fixed, non-configurable prefix, modelled
here as the root). -/
def URL_BASE : String := "/"

/-- Modelled from the spec: the fixed account-resource base path,
`URL_BASE` plus the accounts segment. -/
def URL_ACCOUNTS : String := URL_BASE ++ "accounts/"

/-- Modelled from the spec: declared variants of the transaction-type
enum (the enum declaration is outside the translated file; the spec
requires only membership of a declared variant and a non-empty
rendering for the `type` query parameter). -/
inductive TransactionType
  | all | trade | buy_only | sell_only | cash_in_or_cash_out
  | checking | dividend | interest | other | advisor_fees
  deriving DecidableEq

/-- Modelled from the spec: rendering of a transaction-type variant for
the `type` query parameter (`to_string(TransactionType)`). -/
def TransactionType.toString : TransactionType → String
  | .all => "ALL"
  | .trade => "TRADE"
  | .buy_only => "BUY_ONLY"
  | .sell_only => "SELL_ONLY"
  | .cash_in_or_cash_out => "CASH_IN_OR_CASH_OUT"
  | .checking => "CHECKING"
  | .dividend => "DIVIDEND"
  | .interest => "INTEREST"
  | .other => "OTHER"
  | .advisor_fees => "ADVISOR_FEES"

/-- Modelled from the spec: mapping of an ABI integer to a declared
transaction-type variant; integers outside the declared range map to
nothing (the `CHECK_ENUM` membership test). -/
def TransactionType.fromInt : Int → Option TransactionType
  | 0 => some .all
  | 1 => some .trade
  | 2 => some .buy_only
  | 3 => some .sell_only
  | 4 => some .cash_in_or_cash_out
  | 5 => some .checking
  | 6 => some .dividend
  | 7 => some .interest
  | 8 => some .other
  | 9 => some .advisor_fees
  | _ => none

/-- Modelled from the spec: declared variants of the order-status enum
(the enum declaration is outside the translated file). -/
inductive OrderStatusType
  | awaiting_parent_order | awaiting_condition | awaiting_manual_review
  | accepted | awaiting_ur_out | pending_activation | queued | working
  | rejected | pending_cancel | canceled | pending_replace | replaced
  | filled | expired
  deriving DecidableEq

/-- Modelled from the spec: rendering of an order-status variant for the
`status` query parameter (`to_string(OrderStatusType)`). -/
def OrderStatusType.toString : OrderStatusType → String
  | .awaiting_parent_order => "AWAITING_PARENT_ORDER"
  | .awaiting_condition => "AWAITING_CONDITION"
  | .awaiting_manual_review => "AWAITING_MANUAL_REVIEW"
  | .accepted => "ACCEPTED"
  | .awaiting_ur_out => "AWAITING_UR_OUT"
  | .pending_activation => "PENDING_ACTIVATION"
  | .queued => "QUEUED"
  | .working => "WORKING"
  | .rejected => "REJECTED"
  | .pending_cancel => "PENDING_CANCEL"
  | .canceled => "CANCELED"
  | .pending_replace => "PENDING_REPLACE"
  | .replaced => "REPLACED"
  | .filled => "FILLED"
  | .expired => "EXPIRED"

/-- Modelled from the spec: mapping of an ABI integer to a declared
order-status variant; integers outside the declared range map to nothing
(the `CHECK_ENUM` membership test). -/
def OrderStatusType.fromInt : Int → Option OrderStatusType
  | 0 => some .awaiting_parent_order
  | 1 => some .awaiting_condition
  | 2 => some .awaiting_manual_review
  | 3 => some .accepted
  | 4 => some .awaiting_ur_out
  | 5 => some .pending_activation
  | 6 => some .queued
  | 7 => some .working
  | 8 => some .rejected
  | 9 => some .pending_cancel
  | 10 => some .canceled
  | 11 => some .pending_replace
  | 12 => some .replaced
  | 13 => some .filled
  | 14 => some .expired
  | _ => none

/-!
Getter variants, translated from `src/get/account.cpp`. Each C++ class
becomes a structure whose fields are the class's data members plus the
cached `built_url` held in the `APIGetterImpl` base. The private
`_build()` method becomes a pure `buildUrl` function plus a `build` step
that stores its result; the constructor becomes `create`, returning an
error instead of an object when a check throws; each setter returns the
outcome of the call paired with the state of the object after the call
(on a throw, the state from before the mutation, since every throw in
the source precedes the assignment).
-/

structure AccountInfoGetter where
  creds : Credentials
  account_id : String
  positions : Bool
  orders : Bool
  built_url : String
  deriving DecidableEq

/-- Pure URL derivation of `AccountInfoGetterImpl::_build`. -/
def AccountInfoGetter.buildUrl (account_id : String) (positions orders : Bool) :
    String :=
  let fields :=
    if positions then "?fields=positions" ++ (if orders then ",orders" else "")
    else if orders then "?fields=orders"
    else ""
  URL_ACCOUNTS ++ url_encode account_id ++ fields

def AccountInfoGetter.build (g : AccountInfoGetter) : AccountInfoGetter :=
  { g with built_url := AccountInfoGetter.buildUrl g.account_id g.positions g.orders }

/-- `AccountInfoGetterImpl` constructor: the account-scoped base checks
`account_id` for emptiness, then the body builds the URL. -/
def AccountInfoGetter.create (creds : Credentials) (account_id : String)
    (positions orders : Bool) : Except ApiErr AccountInfoGetter :=
  if account_id = "" then .error (.valueException "account_id is empty")
  else .ok (AccountInfoGetter.build
    { creds := creds, account_id := account_id, positions := positions,
      orders := orders, built_url := "" })

def AccountInfoGetter.get_account_id (g : AccountInfoGetter) : String :=
  g.account_id

def AccountInfoGetter.returns_positions (g : AccountInfoGetter) : Bool :=
  g.positions

def AccountInfoGetter.returns_orders (g : AccountInfoGetter) : Bool :=
  g.orders

def AccountInfoGetter.set_account_id (g : AccountInfoGetter)
    (account_id : String) : Except ApiErr Unit × AccountInfoGetter :=
  if account_id = "" then (.error (.valueException "account_id is empty"), g)
  else (.ok (), AccountInfoGetter.build { g with account_id := account_id })

def AccountInfoGetter.return_positions (g : AccountInfoGetter)
    (positions : Bool) : Except ApiErr Unit × AccountInfoGetter :=
  (.ok (), AccountInfoGetter.build { g with positions := positions })

def AccountInfoGetter.return_orders (g : AccountInfoGetter)
    (orders : Bool) : Except ApiErr Unit × AccountInfoGetter :=
  (.ok (), AccountInfoGetter.build { g with orders := orders })

structure PreferencesGetter where
  creds : Credentials
  account_id : String
  built_url : String
  deriving DecidableEq

/-- Pure URL derivation of `PreferencesGetterImpl::_build`. -/
def PreferencesGetter.buildUrl (account_id : String) : String :=
  URL_ACCOUNTS ++ url_encode account_id ++ "/preferences"

def PreferencesGetter.build (g : PreferencesGetter) : PreferencesGetter :=
  { g with built_url := PreferencesGetter.buildUrl g.account_id }

def PreferencesGetter.create (creds : Credentials) (account_id : String) :
    Except ApiErr PreferencesGetter :=
  if account_id = "" then .error (.valueException "account_id is empty")
  else .ok (PreferencesGetter.build
    { creds := creds, account_id := account_id, built_url := "" })

def PreferencesGetter.get_account_id (g : PreferencesGetter) : String :=
  g.account_id

def PreferencesGetter.set_account_id (g : PreferencesGetter)
    (account_id : String) : Except ApiErr Unit × PreferencesGetter :=
  if account_id = "" then (.error (.valueException "account_id is empty"), g)
  else (.ok (), PreferencesGetter.build { g with account_id := account_id })

structure StreamerSubscriptionKeysGetter where
  creds : Credentials
  account_id : String
  built_url : String
  deriving DecidableEq

/-- Pure URL derivation of `StreamerSubscriptionKeysGetterImpl::_build`. -/
def StreamerSubscriptionKeysGetter.buildUrl (account_id : String) : String :=
  URL_BASE ++ "userprincipals/streamersubscriptionkeys" ++
    ("?accountIds=" ++ url_encode account_id)

def StreamerSubscriptionKeysGetter.build (g : StreamerSubscriptionKeysGetter) :
    StreamerSubscriptionKeysGetter :=
  { g with built_url := StreamerSubscriptionKeysGetter.buildUrl g.account_id }

def StreamerSubscriptionKeysGetter.create (creds : Credentials)
    (account_id : String) : Except ApiErr StreamerSubscriptionKeysGetter :=
  if account_id = "" then .error (.valueException "account_id is empty")
  else .ok (StreamerSubscriptionKeysGetter.build
    { creds := creds, account_id := account_id, built_url := "" })

def StreamerSubscriptionKeysGetter.get_account_id
    (g : StreamerSubscriptionKeysGetter) : String :=
  g.account_id

def StreamerSubscriptionKeysGetter.set_account_id
    (g : StreamerSubscriptionKeysGetter) (account_id : String) :
    Except ApiErr Unit × StreamerSubscriptionKeysGetter :=
  if account_id = "" then (.error (.valueException "account_id is empty"), g)
  else (.ok (), StreamerSubscriptionKeysGetter.build
    { g with account_id := account_id })

structure TransactionHistoryGetter where
  creds : Credentials
  account_id : String
  transaction_type : TransactionType
  symbol : String
  start_date : String
  end_date : String
  built_url : String
  deriving DecidableEq

/-- Pure URL derivation of `TransactionHistoryGetterImpl::_build`: the
`type` pair is always appended, `symbol` / `startDate` / `endDate` only
when the stored value is non-empty, in that order. -/
def TransactionHistoryGetter.buildUrl (account_id : String)
    (transaction_type : TransactionType) (symbol start_date end_date : String) :
    String :=
  let params := [("type", TransactionType.toString transaction_type)]
  let params := params ++ (if symbol ≠ "" then [("symbol", symbol)] else [])
  let params := params ++
    (if start_date ≠ "" then [("startDate", start_date)] else [])
  let params := params ++ (if end_date ≠ "" then [("endDate", end_date)] else [])
  URL_ACCOUNTS ++ url_encode account_id ++ "/transactions?" ++
    build_encoded_query_str params

def TransactionHistoryGetter.build (g : TransactionHistoryGetter) :
    TransactionHistoryGetter :=
  { g with built_url := (TransactionHistoryGetter.buildUrl g.account_id
      g.transaction_type g.symbol g.start_date g.end_date) }

/-- `TransactionHistoryGetterImpl` constructor: account-scoped base check,
then the two date checks of the body (the symbol is stored upper-cased by
the member initialiser); the object only materialises when no check
throws. -/
def TransactionHistoryGetter.create (creds : Credentials) (account_id : String)
    (transaction_type : TransactionType) (symbol start_date end_date : String) :
    Except ApiErr TransactionHistoryGetter :=
  if account_id = "" then .error (.valueException "account_id is empty")
  else if start_date ≠ "" ∧ is_valid_iso8601_datetime start_date = false then
    .error (.valueException ("invalid ISO-8601 date: " ++ start_date))
  else if end_date ≠ "" ∧ is_valid_iso8601_datetime end_date = false then
    .error (.valueException ("invalid ISO-8601 date: " ++ end_date))
  else .ok (TransactionHistoryGetter.build
    { creds := creds, account_id := account_id,
      transaction_type := transaction_type, symbol := toupper symbol,
      start_date := start_date, end_date := end_date, built_url := "" })

def TransactionHistoryGetter.get_account_id (g : TransactionHistoryGetter) :
    String :=
  g.account_id

def TransactionHistoryGetter.get_transaction_type
    (g : TransactionHistoryGetter) : TransactionType :=
  g.transaction_type

def TransactionHistoryGetter.get_symbol (g : TransactionHistoryGetter) :
    String :=
  g.symbol

def TransactionHistoryGetter.get_start_date (g : TransactionHistoryGetter) :
    String :=
  g.start_date

def TransactionHistoryGetter.get_end_date (g : TransactionHistoryGetter) :
    String :=
  g.end_date

def TransactionHistoryGetter.set_account_id (g : TransactionHistoryGetter)
    (account_id : String) : Except ApiErr Unit × TransactionHistoryGetter :=
  if account_id = "" then (.error (.valueException "account_id is empty"), g)
  else (.ok (), TransactionHistoryGetter.build { g with account_id := account_id })

def TransactionHistoryGetter.set_transaction_type (g : TransactionHistoryGetter)
    (transaction_type : TransactionType) :
    Except ApiErr Unit × TransactionHistoryGetter :=
  (.ok (), TransactionHistoryGetter.build
    { g with transaction_type := transaction_type })

def TransactionHistoryGetter.set_symbol (g : TransactionHistoryGetter)
    (symbol : String) : Except ApiErr Unit × TransactionHistoryGetter :=
  (.ok (), TransactionHistoryGetter.build { g with symbol := toupper symbol })

def TransactionHistoryGetter.set_start_date (g : TransactionHistoryGetter)
    (start_date : String) : Except ApiErr Unit × TransactionHistoryGetter :=
  if start_date ≠ "" ∧ is_valid_iso8601_datetime start_date = false then
    (.error (.valueException ("invalid ISO-8601 date: " ++ start_date)), g)
  else (.ok (), TransactionHistoryGetter.build { g with start_date := start_date })

def TransactionHistoryGetter.set_end_date (g : TransactionHistoryGetter)
    (end_date : String) : Except ApiErr Unit × TransactionHistoryGetter :=
  if end_date ≠ "" ∧ is_valid_iso8601_datetime end_date = false then
    (.error (.valueException ("invalid ISO-8601 date: " ++ end_date)), g)
  else (.ok (), TransactionHistoryGetter.build { g with end_date := end_date })

structure IndividualTransactionHistoryGetter where
  creds : Credentials
  account_id : String
  transaction_id : String
  built_url : String
  deriving DecidableEq

/-- Pure URL derivation of `IndividualTransactionHistoryGetterImpl::_build`. -/
def IndividualTransactionHistoryGetter.buildUrl
    (account_id transaction_id : String) : String :=
  URL_ACCOUNTS ++ url_encode account_id ++ "/transactions/" ++
    url_encode transaction_id

def IndividualTransactionHistoryGetter.build
    (g : IndividualTransactionHistoryGetter) :
    IndividualTransactionHistoryGetter :=
  { g with built_url := (IndividualTransactionHistoryGetter.buildUrl
      g.account_id g.transaction_id) }

def IndividualTransactionHistoryGetter.create (creds : Credentials)
    (account_id transaction_id : String) :
    Except ApiErr IndividualTransactionHistoryGetter :=
  if account_id = "" then .error (.valueException "account_id is empty")
  else if transaction_id = "" then
    .error (.valueException "transaction id is empty")
  else .ok (IndividualTransactionHistoryGetter.build
    { creds := creds, account_id := account_id,
      transaction_id := transaction_id, built_url := "" })

def IndividualTransactionHistoryGetter.get_account_id
    (g : IndividualTransactionHistoryGetter) : String :=
  g.account_id

def IndividualTransactionHistoryGetter.get_transaction_id
    (g : IndividualTransactionHistoryGetter) : String :=
  g.transaction_id

def IndividualTransactionHistoryGetter.set_account_id
    (g : IndividualTransactionHistoryGetter) (account_id : String) :
    Except ApiErr Unit × IndividualTransactionHistoryGetter :=
  if account_id = "" then (.error (.valueException "account_id is empty"), g)
  else (.ok (), IndividualTransactionHistoryGetter.build
    { g with account_id := account_id })

def IndividualTransactionHistoryGetter.set_transaction_id
    (g : IndividualTransactionHistoryGetter) (transaction_id : String) :
    Except ApiErr Unit × IndividualTransactionHistoryGetter :=
  if transaction_id = "" then
    (.error (.valueException "transaction id is empty"), g)
  else (.ok (), IndividualTransactionHistoryGetter.build
    { g with transaction_id := transaction_id })

structure UserPrincipalsGetter where
  creds : Credentials
  streamer_subscription_keys : Bool
  streamer_connection_info : Bool
  preferences : Bool
  surrogate_ids : Bool
  built_url : String
  deriving DecidableEq

/-- Pure URL derivation of `UserPrincipalsGetterImpl::_build`: the field
names of the true flags, in declaration order, joined with commas behind
a single `?fields=`; no query component at all when every flag is false. -/
def UserPrincipalsGetter.buildUrl (streamer_subscription_keys
    streamer_connection_info preferences surrogate_ids : Bool) : String :=
  let fields : List String :=
    (if streamer_subscription_keys then ["streamerSubscriptionKeys"] else []) ++
    (if streamer_connection_info then ["streamerConnectionInfo"] else []) ++
    (if preferences then ["preferences"] else []) ++
    (if surrogate_ids then ["surrogateIds"] else [])
  let fields_str := if fields = [] then "" else "?fields=" ++ joinWith fields ','
  URL_BASE ++ "userprincipals" ++ fields_str

def UserPrincipalsGetter.build (g : UserPrincipalsGetter) :
    UserPrincipalsGetter :=
  { g with built_url := (UserPrincipalsGetter.buildUrl
      g.streamer_subscription_keys g.streamer_connection_info g.preferences
      g.surrogate_ids) }

/-- `UserPrincipalsGetterImpl` constructor: no field validation, the body
only builds the URL. -/
def UserPrincipalsGetter.create (creds : Credentials)
    (streamer_subscription_keys streamer_connection_info preferences
     surrogate_ids : Bool) : Except ApiErr UserPrincipalsGetter :=
  .ok (UserPrincipalsGetter.build
    { creds := creds,
      streamer_subscription_keys := streamer_subscription_keys,
      streamer_connection_info := streamer_connection_info,
      preferences := preferences, surrogate_ids := surrogate_ids,
      built_url := "" })

def UserPrincipalsGetter.returns_streamer_subscription_keys
    (g : UserPrincipalsGetter) : Bool :=
  g.streamer_subscription_keys

def UserPrincipalsGetter.returns_streamer_connection_info
    (g : UserPrincipalsGetter) : Bool :=
  g.streamer_connection_info

def UserPrincipalsGetter.returns_preferences (g : UserPrincipalsGetter) :
    Bool :=
  g.preferences

def UserPrincipalsGetter.returns_surrogate_ids (g : UserPrincipalsGetter) :
    Bool :=
  g.surrogate_ids

def UserPrincipalsGetter.return_streamer_subscription_keys
    (g : UserPrincipalsGetter) (streamer_subscription_keys : Bool) :
    Except ApiErr Unit × UserPrincipalsGetter :=
  (.ok (), UserPrincipalsGetter.build
    { g with streamer_subscription_keys := streamer_subscription_keys })

def UserPrincipalsGetter.return_streamer_connection_info
    (g : UserPrincipalsGetter) (streamer_connection_info : Bool) :
    Except ApiErr Unit × UserPrincipalsGetter :=
  (.ok (), UserPrincipalsGetter.build
    { g with streamer_connection_info := streamer_connection_info })

def UserPrincipalsGetter.return_preferences (g : UserPrincipalsGetter)
    (preferences : Bool) : Except ApiErr Unit × UserPrincipalsGetter :=
  (.ok (), UserPrincipalsGetter.build { g with preferences := preferences })

def UserPrincipalsGetter.return_surrogate_ids (g : UserPrincipalsGetter)
    (surrogate_ids : Bool) : Except ApiErr Unit × UserPrincipalsGetter :=
  (.ok (), UserPrincipalsGetter.build { g with surrogate_ids := surrogate_ids })

structure OrderGetter where
  creds : Credentials
  account_id : String
  order_id : String
  built_url : String
  deriving DecidableEq

/-- Pure URL derivation of `OrderGetterImpl::_build`. -/
def OrderGetter.buildUrl (account_id order_id : String) : String :=
  URL_ACCOUNTS ++ url_encode account_id ++ "/orders/" ++ url_encode order_id

def OrderGetter.build (g : OrderGetter) : OrderGetter :=
  { g with built_url := OrderGetter.buildUrl g.account_id g.order_id }

def OrderGetter.create (creds : Credentials) (account_id order_id : String) :
    Except ApiErr OrderGetter :=
  if account_id = "" then .error (.valueException "account_id is empty")
  else if order_id = "" then .error (.valueException "empty order ID")
  else .ok (OrderGetter.build
    { creds := creds, account_id := account_id, order_id := order_id,
      built_url := "" })

def OrderGetter.get_account_id (g : OrderGetter) : String :=
  g.account_id

def OrderGetter.get_order_id (g : OrderGetter) : String :=
  g.order_id

def OrderGetter.set_account_id (g : OrderGetter) (account_id : String) :
    Except ApiErr Unit × OrderGetter :=
  if account_id = "" then (.error (.valueException "account_id is empty"), g)
  else (.ok (), OrderGetter.build { g with account_id := account_id })

def OrderGetter.set_order_id (g : OrderGetter) (order_id : String) :
    Except ApiErr Unit × OrderGetter :=
  if order_id = "" then (.error (.valueException "empty order ID"), g)
  else (.ok (), OrderGetter.build { g with order_id := order_id })

structure OrdersGetter where
  creds : Credentials
  account_id : String
  nmax_results : Nat
  from_entered_time : String
  to_entered_time : String
  order_status_type : OrderStatusType
  built_url : String
  deriving DecidableEq

/-- Pure URL derivation of `OrdersGetterImpl::_build`: the four pairs
`maxResults`, `fromEnteredTime`, `toEnteredTime`, `status` are appended
in that order and passed through the query encoder. -/
def OrdersGetter.buildUrl (account_id : String) (nmax_results : Nat)
    (from_entered_time to_entered_time : String)
    (order_status_type : OrderStatusType) : String :=
  let params : List (String × String) :=
    [("maxResults", nat_to_string nmax_results),
     ("fromEnteredTime", from_entered_time),
     ("toEnteredTime", to_entered_time),
     ("status", OrderStatusType.toString order_status_type)]
  URL_ACCOUNTS ++ url_encode account_id ++ "/orders?" ++
    build_encoded_query_str params

def OrdersGetter.build (g : OrdersGetter) : OrdersGetter :=
  { g with built_url := (OrdersGetter.buildUrl g.account_id g.nmax_results
      g.from_entered_time g.to_entered_time g.order_status_type) }

/-- `OrdersGetterImpl` constructor: account-scoped base check, then the
body checks `nmax_results < 1` and validates both entered-time strings
unconditionally (no empty-string escape, unlike the transaction dates). -/
def OrdersGetter.create (creds : Credentials) (account_id : String)
    (nmax_results : Nat) (from_entered_time to_entered_time : String)
    (order_status_type : OrderStatusType) : Except ApiErr OrdersGetter :=
  if account_id = "" then .error (.valueException "account_id is empty")
  else if nmax_results < 1 then .error (.valueException "nmax_results < 1")
  else if is_valid_iso8601_datetime from_entered_time = false then
    .error (.valueException ("invalid ISO-8601 date/time: " ++ from_entered_time))
  else if is_valid_iso8601_datetime to_entered_time = false then
    .error (.valueException ("invalid ISO-8601 date/time: " ++ to_entered_time))
  else .ok (OrdersGetter.build
    { creds := creds, account_id := account_id, nmax_results := nmax_results,
      from_entered_time := from_entered_time,
      to_entered_time := to_entered_time,
      order_status_type := order_status_type, built_url := "" })

def OrdersGetter.get_account_id (g : OrdersGetter) : String :=
  g.account_id

def OrdersGetter.get_nmax_results (g : OrdersGetter) : Nat :=
  g.nmax_results

def OrdersGetter.get_from_entered_time (g : OrdersGetter) : String :=
  g.from_entered_time

def OrdersGetter.get_to_entered_time (g : OrdersGetter) : String :=
  g.to_entered_time

def OrdersGetter.get_order_status_type (g : OrdersGetter) : OrderStatusType :=
  g.order_status_type

def OrdersGetter.set_account_id (g : OrdersGetter) (account_id : String) :
    Except ApiErr Unit × OrdersGetter :=
  if account_id = "" then (.error (.valueException "account_id is empty"), g)
  else (.ok (), OrdersGetter.build { g with account_id := account_id })

def OrdersGetter.set_nmax_results (g : OrdersGetter) (nmax_results : Nat) :
    Except ApiErr Unit × OrdersGetter :=
  if nmax_results < 1 then (.error (.valueException "nmax_results < 1"), g)
  else (.ok (), OrdersGetter.build { g with nmax_results := nmax_results })

def OrdersGetter.set_from_entered_time (g : OrdersGetter)
    (from_entered_time : String) : Except ApiErr Unit × OrdersGetter :=
  if is_valid_iso8601_datetime from_entered_time = false then
    (.error (.valueException ("invalid ISO-8601 date/time: " ++
      from_entered_time)), g)
  else (.ok (), OrdersGetter.build
    { g with from_entered_time := from_entered_time })

def OrdersGetter.set_to_entered_time (g : OrdersGetter)
    (to_entered_time : String) : Except ApiErr Unit × OrdersGetter :=
  if is_valid_iso8601_datetime to_entered_time = false then
    (.error (.valueException ("invalid ISO-8601 date/time: " ++
      to_entered_time)), g)
  else (.ok (), OrdersGetter.build { g with to_entered_time := to_entered_time })

def OrdersGetter.set_order_status_type (g : OrdersGetter)
    (order_status_type : OrderStatusType) :
    Except ApiErr Unit × OrdersGetter :=
  (.ok (), OrdersGetter.build { g with order_status_type := order_status_type })

/-!
C-ABI boundary, translated from the wrapper functions of
`src/get/account.cpp`. A possibly-null C string argument is modelled as
`Option String`, the credentials pointer as `Option Credentials`, and the
output-handle pointer as a `Bool` that is true when the handle is
non-null. The `getter_is_creatable` / `CHECK_PTR_KILL_PROXY` /
`CHECK_ENUM` macros are declared outside the translated file; their
behaviour (reject a null required pointer, reject an integer that is not
a declared enum variant, before any construction or mutation) is
modelled from the spec.
-/

/-- Structured error produced at the ABI boundary. -/
inductive AbiErr
  | nullCredentials
  | nullPointer (name : String)
  | invalidEnum (name : String) (value : Int)
  | value (e : ApiErr)
  deriving DecidableEq

/-- Error-side map over `Except`, used to lift a getter-layer error into
an ABI error. -/
def exMapErr {ε ε2 α : Type} (f : ε → ε2) : Except ε α → Except ε2 α
  | .ok a => .ok a
  | .error e => .error (f e)

/-- `TransactionHistoryGetter_Create_ABI`: null-handle and null-credential
checks, the `TransactionType` membership check, the `account_id` null
check, then construction through a lambda that replaces a null `symbol`,
`start_date` or `end_date` with the empty string. -/
def TransactionHistoryGetter_Create_ABI (pcreds : Option Credentials)
    (account_id : Option String) (transaction_type : Int)
    (symbol start_date end_date : Option String) (pgetter : Bool) :
    Except AbiErr TransactionHistoryGetter :=
  if pgetter = false then .error (.nullPointer "getter") else
  match pcreds with
  | none => .error .nullCredentials
  | some creds =>
    match TransactionType.fromInt transaction_type with
    | none => .error (.invalidEnum "TransactionType" transaction_type)
    | some t =>
      match account_id with
      | none => .error (.nullPointer "account_id")
      | some aid =>
        exMapErr AbiErr.value
          (TransactionHistoryGetter.create creds aid t (symbol.getD "")
            (start_date.getD "") (end_date.getD ""))

/-- `TransactionHistoryGetter_SetTransactionType_ABI`: the `CHECK_ENUM`
membership test runs before the implementation setter is reached. -/
def TransactionHistoryGetter_SetTransactionType_ABI
    (g : TransactionHistoryGetter) (transaction_type : Int) :
    Except AbiErr Unit × TransactionHistoryGetter :=
  match TransactionType.fromInt transaction_type with
  | none => (.error (.invalidEnum "TransactionType" transaction_type), g)
  | some t =>
    let p := TransactionHistoryGetter.set_transaction_type g t
    (exMapErr AbiErr.value p.1, p.2)

/-- `OrdersGetter_Create_ABI`: null checks for the handle, credentials,
`account_id` and both entered-time strings, then the `OrderStatusType`
membership check, then construction. -/
def OrdersGetter_Create_ABI (pcreds : Option Credentials)
    (account_id : Option String) (nmax_results : Nat)
    (from_entered_time to_entered_time : Option String)
    (order_status_type : Int) (pgetter : Bool) :
    Except AbiErr OrdersGetter :=
  if pgetter = false then .error (.nullPointer "getter") else
  match pcreds with
  | none => .error .nullCredentials
  | some creds =>
    match account_id with
    | none => .error (.nullPointer "account id")
    | some aid =>
      match from_entered_time with
      | none => .error (.nullPointer "from entered time")
      | some f =>
        match to_entered_time with
        | none => .error (.nullPointer "to entered time")
        | some t =>
          match OrderStatusType.fromInt order_status_type with
          | none => .error (.invalidEnum "OrderStatusType" order_status_type)
          | some os =>
            exMapErr AbiErr.value
              (OrdersGetter.create creds aid nmax_results f t os)

/-- `OrdersGetter_SetOrderStatusType_ABI`: the `CHECK_ENUM` membership
test runs before the implementation setter is reached. -/
def OrdersGetter_SetOrderStatusType_ABI (g : OrdersGetter)
    (order_status_type : Int) : Except AbiErr Unit × OrdersGetter :=
  match OrderStatusType.fromInt order_status_type with
  | none => (.error (.invalidEnum "OrderStatusType" order_status_type), g)
  | some os =>
    let p := OrdersGetter.set_order_status_type g os
    (exMapErr AbiErr.value p.1, p.2)

/-- Boolean success test for an `Except` result. -/
def exOk {ε α : Type} : Except ε α → Bool
  | .ok _ => true
  | .error _ => false

/-- URL-consistency invariant of an `AccountInfoGetter`: the cached URL
equals the pure URL-build function of the current fields. -/
def AccountInfoGetter.consistent (g : AccountInfoGetter) : Prop :=
  g.built_url = AccountInfoGetter.buildUrl g.account_id g.positions g.orders

/-- URL-consistency invariant of a `PreferencesGetter`. -/
def PreferencesGetter.consistent (g : PreferencesGetter) : Prop :=
  g.built_url = PreferencesGetter.buildUrl g.account_id

/-- URL-consistency invariant of a `StreamerSubscriptionKeysGetter`. -/
def StreamerSubscriptionKeysGetter.consistent
    (g : StreamerSubscriptionKeysGetter) : Prop :=
  g.built_url = StreamerSubscriptionKeysGetter.buildUrl g.account_id

/-- URL-consistency invariant of a `TransactionHistoryGetter`. -/
def TransactionHistoryGetter.consistent (g : TransactionHistoryGetter) : Prop :=
  g.built_url = TransactionHistoryGetter.buildUrl g.account_id
    g.transaction_type g.symbol g.start_date g.end_date

/-- URL-consistency invariant of an `IndividualTransactionHistoryGetter`. -/
def IndividualTransactionHistoryGetter.consistent
    (g : IndividualTransactionHistoryGetter) : Prop :=
  g.built_url = IndividualTransactionHistoryGetter.buildUrl g.account_id
    g.transaction_id

/-- URL-consistency invariant of a `UserPrincipalsGetter`. -/
def UserPrincipalsGetter.consistent (g : UserPrincipalsGetter) : Prop :=
  g.built_url = UserPrincipalsGetter.buildUrl g.streamer_subscription_keys
    g.streamer_connection_info g.preferences g.surrogate_ids

/-- URL-consistency invariant of an `OrderGetter`. -/
def OrderGetter.consistent (g : OrderGetter) : Prop :=
  g.built_url = OrderGetter.buildUrl g.account_id g.order_id

/-- URL-consistency invariant of an `OrdersGetter`. -/
def OrdersGetter.consistent (g : OrdersGetter) : Prop :=
  g.built_url = OrdersGetter.buildUrl g.account_id g.nmax_results
    g.from_entered_time g.to_entered_time g.order_status_type

/-- The spec's own wording of the UserPrincipals URL, for the refinement
comparison: path `/userprincipals`, with `fields` the comma-join of the
any-true subset of the four flag names in the fixed order, and the whole
query component omitted when all flags are false. -/
def userPrincipalsUrlSpec (streamer_subscription_keys
    streamer_connection_info preferences surrogate_ids : Bool) : String :=
  let names : List String :=
    (if streamer_subscription_keys then ["streamerSubscriptionKeys"] else []) ++
    (if streamer_connection_info then ["streamerConnectionInfo"] else []) ++
    (if preferences then ["preferences"] else []) ++
    (if surrogate_ids then ["surrogateIds"] else [])
  if names.isEmpty then "/userprincipals"
  else "/userprincipals?fields=" ++ String.intercalate "," names

/-!
Helper lemmas shared by the claim theorems.
-/

theorem natDigitsAux_length (n : Nat) : ∀ acc : List Char,
    acc.length ≤ (natDigitsAux n acc).length := by
  induction n using Nat.strong_induction_on with
  | _ n ih =>
    intro acc
    unfold natDigitsAux
    split
    · exact Nat.le_refl _
    · rename_i h
      exact Nat.le_trans (Nat.le_succ _)
        (ih (n / 10) (Nat.div_lt_self (Nat.pos_of_ne_zero h) (by decide))
          (Char.ofNat (48 + n % 10) :: acc))

theorem nat_to_string_ne_empty (n : Nat) : nat_to_string n ≠ "" := by
  unfold nat_to_string
  split
  · decide
  · rename_i h
    intro hcon
    have h1 : (1 : Nat) ≤ (natDigitsAux n []).length := by
      unfold natDigitsAux
      split
      · contradiction
      · exact natDigitsAux_length (n / 10) [Char.ofNat (48 + n % 10)]
    have h2 : natDigitsAux n [] = [] := congrArg String.data hcon
    rw [h2] at h1
    exact absurd h1 (by decide)

theorem valid_iso_ne_empty (s : String)
    (h : is_valid_iso8601_datetime s = true) : s ≠ "" := by
  intro he
  rw [he] at h
  exact absurd h (by decide)

theorem transactionType_toString_ne_empty (t : TransactionType) :
    TransactionType.toString t ≠ "" := by
  cases t <;> decide

theorem orderStatusType_toString_ne_empty (os : OrderStatusType) :
    OrderStatusType.toString os ≠ "" := by
  cases os <;> decide

theorem accountInfo_build_consistent (g : AccountInfoGetter) :
    (AccountInfoGetter.build g).consistent := rfl

theorem preferences_build_consistent (g : PreferencesGetter) :
    (PreferencesGetter.build g).consistent := rfl

theorem subscriptionKeys_build_consistent
    (g : StreamerSubscriptionKeysGetter) :
    (StreamerSubscriptionKeysGetter.build g).consistent := rfl

theorem transactionHistory_build_consistent
    (g : TransactionHistoryGetter) :
    (TransactionHistoryGetter.build g).consistent := rfl

theorem individualTransaction_build_consistent
    (g : IndividualTransactionHistoryGetter) :
    (IndividualTransactionHistoryGetter.build g).consistent := rfl

theorem userPrincipals_build_consistent (g : UserPrincipalsGetter) :
    (UserPrincipalsGetter.build g).consistent := rfl

theorem order_build_consistent (g : OrderGetter) :
    (OrderGetter.build g).consistent := rfl

theorem orders_build_consistent (g : OrdersGetter) :
    (OrdersGetter.build g).consistent := rfl

theorem beqs_one (k1 v1 : String) (h1 : v1 ≠ "") :
    build_encoded_query_str [(k1, v1)] =
      url_encode k1 ++ "=" ++ url_encode v1 := by
  simp [build_encoded_query_str, List.filter_cons, h1, joinWith]

theorem beqs_two (k1 v1 k2 v2 : String) (h1 : v1 ≠ "") (h2 : v2 ≠ "") :
    build_encoded_query_str [(k1, v1), (k2, v2)] =
      joinWith [url_encode k1 ++ "=" ++ url_encode v1,
                url_encode k2 ++ "=" ++ url_encode v2] '&' := by
  simp [build_encoded_query_str, List.filter_cons, h1, h2]

theorem beqs_four (k1 v1 k2 v2 k3 v3 k4 v4 : String) (h1 : v1 ≠ "")
    (h2 : v2 ≠ "") (h3 : v3 ≠ "") (h4 : v4 ≠ "") :
    build_encoded_query_str [(k1, v1), (k2, v2), (k3, v3), (k4, v4)] =
      joinWith [url_encode k1 ++ "=" ++ url_encode v1,
                url_encode k2 ++ "=" ++ url_encode v2,
                url_encode k3 ++ "=" ++ url_encode v3,
                url_encode k4 ++ "=" ++ url_encode v4] '&' := by
  simp [build_encoded_query_str, List.filter_cons, h1, h2, h3, h4]

theorem append_left_congr {a b : String} (x : String) (h : a = b) :
    a ++ x = b ++ x := by rw [h]

/-- Claim C1: for every getter variant, after any successful constructor
or setter call returns, the cached `built_url` equals the variant's pure
URL-build function applied to the current field values; every setter that
commits a field change rebuilds the URL before returning, so no observer
sees a stale URL after a completed mutation. -/
theorem C1_built_url_never_stale :
    (∀ c a p o g, AccountInfoGetter.create c a p o = .ok g → g.consistent) ∧
    (∀ (g : AccountInfoGetter) a, g.consistent →
      ((AccountInfoGetter.set_account_id g a).2).consistent) ∧
    (∀ (g : AccountInfoGetter) b, g.consistent →
      ((AccountInfoGetter.return_positions g b).2).consistent) ∧
    (∀ (g : AccountInfoGetter) b, g.consistent →
      ((AccountInfoGetter.return_orders g b).2).consistent) ∧
    (∀ c a g, PreferencesGetter.create c a = .ok g → g.consistent) ∧
    (∀ (g : PreferencesGetter) a, g.consistent →
      ((PreferencesGetter.set_account_id g a).2).consistent) ∧
    (∀ c a g, StreamerSubscriptionKeysGetter.create c a = .ok g →
      g.consistent) ∧
    (∀ (g : StreamerSubscriptionKeysGetter) a, g.consistent →
      ((StreamerSubscriptionKeysGetter.set_account_id g a).2).consistent) ∧
    (∀ c a t sy sd ed g, TransactionHistoryGetter.create c a t sy sd ed = .ok g →
      g.consistent) ∧
    (∀ (g : TransactionHistoryGetter) a, g.consistent →
      ((TransactionHistoryGetter.set_account_id g a).2).consistent) ∧
    (∀ (g : TransactionHistoryGetter) t, g.consistent →
      ((TransactionHistoryGetter.set_transaction_type g t).2).consistent) ∧
    (∀ (g : TransactionHistoryGetter) sy, g.consistent →
      ((TransactionHistoryGetter.set_symbol g sy).2).consistent) ∧
    (∀ (g : TransactionHistoryGetter) sd, g.consistent →
      ((TransactionHistoryGetter.set_start_date g sd).2).consistent) ∧
    (∀ (g : TransactionHistoryGetter) ed, g.consistent →
      ((TransactionHistoryGetter.set_end_date g ed).2).consistent) ∧
    (∀ c a tid g, IndividualTransactionHistoryGetter.create c a tid = .ok g →
      g.consistent) ∧
    (∀ (g : IndividualTransactionHistoryGetter) a, g.consistent →
      ((IndividualTransactionHistoryGetter.set_account_id g a).2).consistent) ∧
    (∀ (g : IndividualTransactionHistoryGetter) tid, g.consistent →
      ((IndividualTransactionHistoryGetter.set_transaction_id g tid).2).consistent) ∧
    (∀ c k i p s g, UserPrincipalsGetter.create c k i p s = .ok g →
      g.consistent) ∧
    (∀ (g : UserPrincipalsGetter) b, g.consistent →
      ((UserPrincipalsGetter.return_streamer_subscription_keys g b).2).consistent) ∧
    (∀ (g : UserPrincipalsGetter) b, g.consistent →
      ((UserPrincipalsGetter.return_streamer_connection_info g b).2).consistent) ∧
    (∀ (g : UserPrincipalsGetter) b, g.consistent →
      ((UserPrincipalsGetter.return_preferences g b).2).consistent) ∧
    (∀ (g : UserPrincipalsGetter) b, g.consistent →
      ((UserPrincipalsGetter.return_surrogate_ids g b).2).consistent) ∧
    (∀ c a oid g, OrderGetter.create c a oid = .ok g → g.consistent) ∧
    (∀ (g : OrderGetter) a, g.consistent →
      ((OrderGetter.set_account_id g a).2).consistent) ∧
    (∀ (g : OrderGetter) oid, g.consistent →
      ((OrderGetter.set_order_id g oid).2).consistent) ∧
    (∀ c a n f t os g, OrdersGetter.create c a n f t os = .ok g →
      g.consistent) ∧
    (∀ (g : OrdersGetter) a, g.consistent →
      ((OrdersGetter.set_account_id g a).2).consistent) ∧
    (∀ (g : OrdersGetter) n, g.consistent →
      ((OrdersGetter.set_nmax_results g n).2).consistent) ∧
    (∀ (g : OrdersGetter) f, g.consistent →
      ((OrdersGetter.set_from_entered_time g f).2).consistent) ∧
    (∀ (g : OrdersGetter) t, g.consistent →
      ((OrdersGetter.set_to_entered_time g t).2).consistent) ∧
    (∀ (g : OrdersGetter) os, g.consistent →
      ((OrdersGetter.set_order_status_type g os).2).consistent) := by
  refine ⟨?_, ?_, ?_, ?_, ?_, ?_, ?_, ?_, ?_, ?_, ?_, ?_, ?_, ?_, ?_, ?_,
    ?_, ?_, ?_, ?_, ?_, ?_, ?_, ?_, ?_, ?_, ?_, ?_, ?_, ?_, ?_⟩
  · intro c a p o g h
    unfold AccountInfoGetter.create at h
    repeat' split at h
    all_goals simp at h
    exact h ▸ accountInfo_build_consistent _
  · intro g a hg
    unfold AccountInfoGetter.set_account_id
    split
    · exact hg
    · exact accountInfo_build_consistent _
  · intro g b hg
    exact accountInfo_build_consistent _
  · intro g b hg
    exact accountInfo_build_consistent _
  · intro c a g h
    unfold PreferencesGetter.create at h
    repeat' split at h
    all_goals simp at h
    exact h ▸ preferences_build_consistent _
  · intro g a hg
    unfold PreferencesGetter.set_account_id
    split
    · exact hg
    · exact preferences_build_consistent _
  · intro c a g h
    unfold StreamerSubscriptionKeysGetter.create at h
    repeat' split at h
    all_goals simp at h
    exact h ▸ subscriptionKeys_build_consistent _
  · intro g a hg
    unfold StreamerSubscriptionKeysGetter.set_account_id
    split
    · exact hg
    · exact subscriptionKeys_build_consistent _
  · intro c a t sy sd ed g h
    unfold TransactionHistoryGetter.create at h
    repeat' split at h
    all_goals simp at h
    exact h ▸ transactionHistory_build_consistent _
  · intro g a hg
    unfold TransactionHistoryGetter.set_account_id
    split
    · exact hg
    · exact transactionHistory_build_consistent _
  · intro g t hg
    exact transactionHistory_build_consistent _
  · intro g sy hg
    exact transactionHistory_build_consistent _
  · intro g sd hg
    unfold TransactionHistoryGetter.set_start_date
    split
    · exact hg
    · exact transactionHistory_build_consistent _
  · intro g ed hg
    unfold TransactionHistoryGetter.set_end_date
    split
    · exact hg
    · exact transactionHistory_build_consistent _
  · intro c a tid g h
    unfold IndividualTransactionHistoryGetter.create at h
    repeat' split at h
    all_goals simp at h
    exact h ▸ individualTransaction_build_consistent _
  · intro g a hg
    unfold IndividualTransactionHistoryGetter.set_account_id
    split
    · exact hg
    · exact individualTransaction_build_consistent _
  · intro g tid hg
    unfold IndividualTransactionHistoryGetter.set_transaction_id
    split
    · exact hg
    · exact individualTransaction_build_consistent _
  · intro c k i p s g h
    injection h with h2
    exact h2 ▸ userPrincipals_build_consistent _
  · intro g b hg
    exact userPrincipals_build_consistent _
  · intro g b hg
    exact userPrincipals_build_consistent _
  · intro g b hg
    exact userPrincipals_build_consistent _
  · intro g b hg
    exact userPrincipals_build_consistent _
  · intro c a oid g h
    unfold OrderGetter.create at h
    repeat' split at h
    all_goals simp at h
    exact h ▸ order_build_consistent _
  · intro g a hg
    unfold OrderGetter.set_account_id
    split
    · exact hg
    · exact order_build_consistent _
  · intro g oid hg
    unfold OrderGetter.set_order_id
    split
    · exact hg
    · exact order_build_consistent _
  · intro c a n f t os g h
    unfold OrdersGetter.create at h
    repeat' split at h
    all_goals simp at h
    exact h ▸ orders_build_consistent _
  · intro g a hg
    unfold OrdersGetter.set_account_id
    split
    · exact hg
    · exact orders_build_consistent _
  · intro g n hg
    unfold OrdersGetter.set_nmax_results
    split
    · exact hg
    · exact orders_build_consistent _
  · intro g f hg
    unfold OrdersGetter.set_from_entered_time
    split
    · exact hg
    · exact orders_build_consistent _
  · intro g t hg
    unfold OrdersGetter.set_to_entered_time
    split
    · exact hg
    · exact orders_build_consistent _
  · intro g os hg
    exact orders_build_consistent _

/-- Witness for C1 at a concrete input: the getter constructed for
account "ABC123" with positions on and orders off satisfies the
URL-consistency invariant. -/
theorem C1_built_url_never_stale_witness :
    ({ creds := (), account_id := "ABC123", positions := true, orders := false,
       built_url := "/accounts/ABC123?fields=positions" } :
      AccountInfoGetter).consistent :=
  C1_built_url_never_stale.1 () "ABC123" true false _ rfl

/-- Claim C2: for every getter variant and every validating setter, when
the call fails the object is exactly as it was before the call — the
second component of the call (the state after it) equals the state the
call was given, so all fields and the cached `built_url` are unchanged
and a get–invalid-set–get round trip observes the original value. -/
theorem C2_failed_setter_leaves_state :
    (∀ (g : AccountInfoGetter) a e,
      (AccountInfoGetter.set_account_id g a).1 = .error e →
      (AccountInfoGetter.set_account_id g a).2 = g) ∧
    (∀ (g : PreferencesGetter) a e,
      (PreferencesGetter.set_account_id g a).1 = .error e →
      (PreferencesGetter.set_account_id g a).2 = g) ∧
    (∀ (g : StreamerSubscriptionKeysGetter) a e,
      (StreamerSubscriptionKeysGetter.set_account_id g a).1 = .error e →
      (StreamerSubscriptionKeysGetter.set_account_id g a).2 = g) ∧
    (∀ (g : TransactionHistoryGetter) a e,
      (TransactionHistoryGetter.set_account_id g a).1 = .error e →
      (TransactionHistoryGetter.set_account_id g a).2 = g) ∧
    (∀ (g : TransactionHistoryGetter) sd e,
      (TransactionHistoryGetter.set_start_date g sd).1 = .error e →
      (TransactionHistoryGetter.set_start_date g sd).2 = g) ∧
    (∀ (g : TransactionHistoryGetter) ed e,
      (TransactionHistoryGetter.set_end_date g ed).1 = .error e →
      (TransactionHistoryGetter.set_end_date g ed).2 = g) ∧
    (∀ (g : IndividualTransactionHistoryGetter) a e,
      (IndividualTransactionHistoryGetter.set_account_id g a).1 = .error e →
      (IndividualTransactionHistoryGetter.set_account_id g a).2 = g) ∧
    (∀ (g : IndividualTransactionHistoryGetter) tid e,
      (IndividualTransactionHistoryGetter.set_transaction_id g tid).1 = .error e →
      (IndividualTransactionHistoryGetter.set_transaction_id g tid).2 = g) ∧
    (∀ (g : OrderGetter) a e,
      (OrderGetter.set_account_id g a).1 = .error e →
      (OrderGetter.set_account_id g a).2 = g) ∧
    (∀ (g : OrderGetter) oid e,
      (OrderGetter.set_order_id g oid).1 = .error e →
      (OrderGetter.set_order_id g oid).2 = g) ∧
    (∀ (g : OrdersGetter) a e,
      (OrdersGetter.set_account_id g a).1 = .error e →
      (OrdersGetter.set_account_id g a).2 = g) ∧
    (∀ (g : OrdersGetter) n e,
      (OrdersGetter.set_nmax_results g n).1 = .error e →
      (OrdersGetter.set_nmax_results g n).2 = g) ∧
    (∀ (g : OrdersGetter) f e,
      (OrdersGetter.set_from_entered_time g f).1 = .error e →
      (OrdersGetter.set_from_entered_time g f).2 = g) ∧
    (∀ (g : OrdersGetter) t e,
      (OrdersGetter.set_to_entered_time g t).1 = .error e →
      (OrdersGetter.set_to_entered_time g t).2 = g) := by
  refine ⟨?_, ?_, ?_, ?_, ?_, ?_, ?_, ?_, ?_, ?_, ?_, ?_, ?_, ?_⟩
  · intro g a e h
    unfold AccountInfoGetter.set_account_id at h ⊢
    split
    · rfl
    · rename_i hc
      rw [if_neg hc] at h
      simp at h
  · intro g a e h
    unfold PreferencesGetter.set_account_id at h ⊢
    split
    · rfl
    · rename_i hc
      rw [if_neg hc] at h
      simp at h
  · intro g a e h
    unfold StreamerSubscriptionKeysGetter.set_account_id at h ⊢
    split
    · rfl
    · rename_i hc
      rw [if_neg hc] at h
      simp at h
  · intro g a e h
    unfold TransactionHistoryGetter.set_account_id at h ⊢
    split
    · rfl
    · rename_i hc
      rw [if_neg hc] at h
      simp at h
  · intro g sd e h
    unfold TransactionHistoryGetter.set_start_date at h ⊢
    split
    · rfl
    · rename_i hc
      rw [if_neg hc] at h
      simp at h
  · intro g ed e h
    unfold TransactionHistoryGetter.set_end_date at h ⊢
    split
    · rfl
    · rename_i hc
      rw [if_neg hc] at h
      simp at h
  · intro g a e h
    unfold IndividualTransactionHistoryGetter.set_account_id at h ⊢
    split
    · rfl
    · rename_i hc
      rw [if_neg hc] at h
      simp at h
  · intro g tid e h
    unfold IndividualTransactionHistoryGetter.set_transaction_id at h ⊢
    split
    · rfl
    · rename_i hc
      rw [if_neg hc] at h
      simp at h
  · intro g a e h
    unfold OrderGetter.set_account_id at h ⊢
    split
    · rfl
    · rename_i hc
      rw [if_neg hc] at h
      simp at h
  · intro g oid e h
    unfold OrderGetter.set_order_id at h ⊢
    split
    · rfl
    · rename_i hc
      rw [if_neg hc] at h
      simp at h
  · intro g a e h
    unfold OrdersGetter.set_account_id at h ⊢
    split
    · rfl
    · rename_i hc
      rw [if_neg hc] at h
      simp at h
  · intro g n e h
    unfold OrdersGetter.set_nmax_results at h ⊢
    split
    · rfl
    · rename_i hc
      rw [if_neg hc] at h
      simp at h
  · intro g f e h
    unfold OrdersGetter.set_from_entered_time at h ⊢
    split
    · rfl
    · rename_i hc
      rw [if_neg hc] at h
      simp at h
  · intro g t e h
    unfold OrdersGetter.set_to_entered_time at h ⊢
    split
    · rfl
    · rename_i hc
      rw [if_neg hc] at h
      simp at h

/-- Witness for C2 at a concrete input: attempting to set the invalid
start date "bad" on a concrete transaction-history getter leaves the
getter exactly as it was. -/
theorem C2_failed_setter_leaves_state_witness :
    (TransactionHistoryGetter.set_start_date
      { creds := (), account_id := "ABC123", transaction_type := .all,
        symbol := "", start_date := "", end_date := "",
        built_url := "/accounts/ABC123/transactions?type=ALL" } "bad").2 =
    { creds := (), account_id := "ABC123", transaction_type := .all,
      symbol := "", start_date := "", end_date := "",
      built_url := "/accounts/ABC123/transactions?type=ALL" } :=
  C2_failed_setter_leaves_state.2.2.2.2.1 _ "bad"
    (.valueException "invalid ISO-8601 date: bad") rfl

/-- Claim C3: for the order-list getter, `nmax_results = 0` fails with
the invalid-argument error and `nmax_results = 1` succeeds, at
construction and at the setter; the entered-time strings are always
required — the empty string fails, at construction and at the setters,
with no omit path — and the query string of every successfully built URL
contains all four parameters `maxResults`, `fromEnteredTime`,
`toEnteredTime`, `status`, in that order. -/
theorem C3_orders_validation_and_query :
    (∀ c a f t os, a ≠ "" →
      OrdersGetter.create c a 0 f t os =
        .error (.valueException "nmax_results < 1")) ∧
    (∀ c a f t os, a ≠ "" → is_valid_iso8601_datetime f = true →
      is_valid_iso8601_datetime t = true →
      exOk (OrdersGetter.create c a 1 f t os) = true) ∧
    (∀ g : OrdersGetter,
      (OrdersGetter.set_nmax_results g 0).1 =
        .error (.valueException "nmax_results < 1") ∧
      (OrdersGetter.set_nmax_results g 0).2 = g) ∧
    (∀ g : OrdersGetter, (OrdersGetter.set_nmax_results g 1).1 = .ok ()) ∧
    (∀ c a n t os, a ≠ "" → 1 ≤ n →
      OrdersGetter.create c a n "" t os =
        .error (.valueException ("invalid ISO-8601 date/time: " ++ ""))) ∧
    (∀ c a n f os, a ≠ "" → 1 ≤ n → is_valid_iso8601_datetime f = true →
      OrdersGetter.create c a n f "" os =
        .error (.valueException ("invalid ISO-8601 date/time: " ++ ""))) ∧
    (∀ g : OrdersGetter,
      (OrdersGetter.set_from_entered_time g "").1 =
        .error (.valueException ("invalid ISO-8601 date/time: " ++ "")) ∧
      (OrdersGetter.set_from_entered_time g "").2 = g) ∧
    (∀ g : OrdersGetter,
      (OrdersGetter.set_to_entered_time g "").1 =
        .error (.valueException ("invalid ISO-8601 date/time: " ++ "")) ∧
      (OrdersGetter.set_to_entered_time g "").2 = g) ∧
    (∀ c a n f t os g, OrdersGetter.create c a n f t os = .ok g →
      g.built_url = URL_ACCOUNTS ++ url_encode a ++ "/orders?" ++
        joinWith ["maxResults=" ++ url_encode (nat_to_string n),
                  "fromEnteredTime=" ++ url_encode f,
                  "toEnteredTime=" ++ url_encode t,
                  "status=" ++ url_encode (OrderStatusType.toString os)] '&') := by
  refine ⟨?_, ?_, ?_, ?_, ?_, ?_, ?_, ?_, ?_⟩
  · intro c a f t os ha
    unfold OrdersGetter.create
    rw [if_neg ha]
    rfl
  · intro c a f t os ha hf ht
    unfold OrdersGetter.create
    rw [if_neg ha, if_neg (by decide : ¬((1 : Nat) < 1)),
      if_neg (by simp [hf]), if_neg (by simp [ht])]
    rfl
  · intro g
    exact ⟨rfl, rfl⟩
  · intro g
    rfl
  · intro c a n t os ha hn
    unfold OrdersGetter.create
    rw [if_neg ha, if_neg (by omega : ¬(n < 1)),
      if_pos (by decide : is_valid_iso8601_datetime "" = false)]
  · intro c a n f os ha hn hf
    unfold OrdersGetter.create
    rw [if_neg ha, if_neg (by omega : ¬(n < 1)), if_neg (by simp [hf]),
      if_pos (by decide : is_valid_iso8601_datetime "" = false)]
  · intro g
    exact ⟨rfl, rfl⟩
  · intro g
    exact ⟨rfl, rfl⟩
  · intro c a n f t os g h
    unfold OrdersGetter.create at h
    repeat' split at h
    all_goals simp at h
    subst h
    rename_i ha hn hf ht
    have hf2 : is_valid_iso8601_datetime f = true := by simpa using hf
    have ht2 : is_valid_iso8601_datetime t = true := by simpa using ht
    show URL_ACCOUNTS ++ url_encode a ++ "/orders?" ++
      build_encoded_query_str
        [("maxResults", nat_to_string n), ("fromEnteredTime", f),
         ("toEnteredTime", t), ("status", OrderStatusType.toString os)] = _
    rw [beqs_four _ _ _ _ _ _ _ _ (nat_to_string_ne_empty n)
      (valid_iso_ne_empty f hf2) (valid_iso_ne_empty t ht2)
      (orderStatusType_toString_ne_empty os)]
    have e1 : url_encode "maxResults" ++ "=" ++ url_encode (nat_to_string n) =
        "maxResults=" ++ url_encode (nat_to_string n) :=
      append_left_congr _ (by decide)
    have e2 : url_encode "fromEnteredTime" ++ "=" ++ url_encode f =
        "fromEnteredTime=" ++ url_encode f :=
      append_left_congr _ (by decide)
    have e3 : url_encode "toEnteredTime" ++ "=" ++ url_encode t =
        "toEnteredTime=" ++ url_encode t :=
      append_left_congr _ (by decide)
    have e4 : url_encode "status" ++ "=" ++
          url_encode (OrderStatusType.toString os) =
        "status=" ++ url_encode (OrderStatusType.toString os) :=
      append_left_congr _ (by decide)
    rw [e1, e2, e3, e4]

/-- Witness for C3 at a concrete input: constructing the order-list
getter with `nmax_results = 1` and valid entered times succeeds. -/
theorem C3_orders_validation_and_query_witness :
    exOk (OrdersGetter.create () "ABC123" 1 "2019-01-01T00:00:00"
      "2019-02-01T00:00:00" OrderStatusType.filled) = true :=
  C3_orders_validation_and_query.2.1 () "ABC123" "2019-01-01T00:00:00"
    "2019-02-01T00:00:00" OrderStatusType.filled (by decide) (by decide)
    (by decide)

/-- Claim C4: for the transaction-history getter, a non-empty start or
end date that is not valid ISO-8601 fails with the invalid-argument
error, at construction and at the date setters; the empty string is
accepted, means no filter, and leaves the corresponding `startDate` /
`endDate` pair out of the built query string (shown by the exact URL
with empty dates, and by the `startDate` pair appearing for a non-empty
date in the same configuration). -/
theorem C4_transaction_dates :
    (∀ c a tt sy sd ed, a ≠ "" → sd ≠ "" →
      is_valid_iso8601_datetime sd = false →
      TransactionHistoryGetter.create c a tt sy sd ed =
        .error (.valueException ("invalid ISO-8601 date: " ++ sd))) ∧
    (∀ c a tt sy sd ed, a ≠ "" →
      (sd = "" ∨ is_valid_iso8601_datetime sd = true) → ed ≠ "" →
      is_valid_iso8601_datetime ed = false →
      TransactionHistoryGetter.create c a tt sy sd ed =
        .error (.valueException ("invalid ISO-8601 date: " ++ ed))) ∧
    (∀ (g : TransactionHistoryGetter) sd, sd ≠ "" →
      is_valid_iso8601_datetime sd = false →
      (TransactionHistoryGetter.set_start_date g sd).1 =
        .error (.valueException ("invalid ISO-8601 date: " ++ sd)) ∧
      (TransactionHistoryGetter.set_start_date g sd).2 = g) ∧
    (∀ (g : TransactionHistoryGetter) ed, ed ≠ "" →
      is_valid_iso8601_datetime ed = false →
      (TransactionHistoryGetter.set_end_date g ed).1 =
        .error (.valueException ("invalid ISO-8601 date: " ++ ed)) ∧
      (TransactionHistoryGetter.set_end_date g ed).2 = g) ∧
    (∀ c a tt sy, a ≠ "" →
      exOk (TransactionHistoryGetter.create c a tt sy "" "") = true) ∧
    (∀ g : TransactionHistoryGetter,
      (TransactionHistoryGetter.set_start_date g "").1 = .ok () ∧
      (TransactionHistoryGetter.set_end_date g "").1 = .ok ()) ∧
    (∀ c a tt g, TransactionHistoryGetter.create c a tt "" "" "" = .ok g →
      g.built_url = URL_ACCOUNTS ++ url_encode a ++ "/transactions?" ++
        ("type=" ++ url_encode (TransactionType.toString tt))) ∧
    (∀ c a tt sd g, sd ≠ "" →
      TransactionHistoryGetter.create c a tt "" sd "" = .ok g →
      g.built_url = URL_ACCOUNTS ++ url_encode a ++ "/transactions?" ++
        joinWith ["type=" ++ url_encode (TransactionType.toString tt),
                  "startDate=" ++ url_encode sd] '&') := by
  refine ⟨?_, ?_, ?_, ?_, ?_, ?_, ?_, ?_⟩
  · intro c a tt sy sd ed ha hsd hv
    unfold TransactionHistoryGetter.create
    rw [if_neg ha, if_pos (show sd ≠ "" ∧ is_valid_iso8601_datetime sd = false
      from ⟨hsd, hv⟩)]
  · intro c a tt sy sd ed ha hsov hed hev
    have hns : ¬(sd ≠ "" ∧ is_valid_iso8601_datetime sd = false) := by
      rcases hsov with h | h <;> simp [h]
    unfold TransactionHistoryGetter.create
    rw [if_neg ha, if_neg hns,
      if_pos (show ed ≠ "" ∧ is_valid_iso8601_datetime ed = false
        from ⟨hed, hev⟩)]
  · intro g sd hsd hv
    unfold TransactionHistoryGetter.set_start_date
    rw [if_pos (show sd ≠ "" ∧ is_valid_iso8601_datetime sd = false
      from ⟨hsd, hv⟩)]
    exact ⟨rfl, rfl⟩
  · intro g ed hed hv
    unfold TransactionHistoryGetter.set_end_date
    rw [if_pos (show ed ≠ "" ∧ is_valid_iso8601_datetime ed = false
      from ⟨hed, hv⟩)]
    exact ⟨rfl, rfl⟩
  · intro c a tt sy ha
    unfold TransactionHistoryGetter.create
    rw [if_neg ha, if_neg (by simp), if_neg (by simp)]
    rfl
  · intro g
    exact ⟨rfl, rfl⟩
  · intro c a tt g h
    unfold TransactionHistoryGetter.create at h
    split at h
    · simp at h
    · rw [if_neg (by simp), if_neg (by simp)] at h
      injection h with h2
      subst h2
      show URL_ACCOUNTS ++ url_encode a ++ "/transactions?" ++
        build_encoded_query_str
          ([("type", TransactionType.toString tt)] ++
            (if toupper "" ≠ "" then [("symbol", toupper "")] else []) ++
            (if ("" : String) ≠ "" then [("startDate", ("" : String))] else []) ++
            (if ("" : String) ≠ "" then [("endDate", ("" : String))] else [])) = _
      rw [if_neg (by decide : ¬(toupper "" ≠ "")),
        if_neg (by decide : ¬(("" : String) ≠ "")),
        if_neg (by decide : ¬(("" : String) ≠ ""))]
      simp only [List.append_nil]
      rw [beqs_one _ _ (transactionType_toString_ne_empty tt)]
      have e1 : url_encode "type" ++ "=" ++
            url_encode (TransactionType.toString tt) =
          "type=" ++ url_encode (TransactionType.toString tt) :=
        append_left_congr _ (by decide)
      rw [e1]
  · intro c a tt sd g hsd h
    unfold TransactionHistoryGetter.create at h
    split at h
    · simp at h
    · split at h
      · simp at h
      · rw [if_neg (by simp)] at h
        injection h with h2
        subst h2
        show URL_ACCOUNTS ++ url_encode a ++ "/transactions?" ++
          build_encoded_query_str
            ([("type", TransactionType.toString tt)] ++
              (if toupper "" ≠ "" then [("symbol", toupper "")] else []) ++
              (if sd ≠ "" then [("startDate", sd)] else []) ++
              (if ("" : String) ≠ "" then [("endDate", ("" : String))] else [])) = _
        rw [if_neg (by decide : ¬(toupper "" ≠ "")), if_pos hsd,
          if_neg (by decide : ¬(("" : String) ≠ ""))]
        simp only [List.append_nil, List.singleton_append]
        rw [beqs_two _ _ _ _ (transactionType_toString_ne_empty tt) hsd]
        have e1 : url_encode "type" ++ "=" ++
              url_encode (TransactionType.toString tt) =
            "type=" ++ url_encode (TransactionType.toString tt) :=
          append_left_congr _ (by decide)
        have e2 : url_encode "startDate" ++ "=" ++ url_encode sd =
            "startDate=" ++ url_encode sd :=
          append_left_congr _ (by decide)
        rw [e1, e2]

/-- Witness for C4 at a concrete input: the invalid month in
"2020-13-01" makes construction of the transaction-history getter fail
with the invalid-argument error. -/
theorem C4_transaction_dates_witness :
    TransactionHistoryGetter.create () "ABC123" TransactionType.all ""
      "2020-13-01" "" =
    .error (.valueException ("invalid ISO-8601 date: " ++ "2020-13-01")) :=
  C4_transaction_dates.1 () "ABC123" TransactionType.all "" "2020-13-01" ""
    (by decide) (by decide) (by decide)

theorem string_append_empty (s : String) : s ++ "" = s := by
  cases s with
  | mk l =>
    show String.mk (l ++ []) = String.mk l
    rw [List.append_nil]

/-- Claim C5: the query component of the account-info URL is an exact
function of the two boolean flags — no `fields` parameter when both are
false, `fields=positions`, `fields=positions,orders` or `fields=orders`
otherwise, always with positions before orders. -/
theorem C5_accountinfo_fields :
    (∀ c a g, AccountInfoGetter.create c a false false = .ok g →
      g.built_url = URL_ACCOUNTS ++ url_encode a) ∧
    (∀ c a g, AccountInfoGetter.create c a true false = .ok g →
      g.built_url = URL_ACCOUNTS ++ url_encode a ++ "?fields=positions") ∧
    (∀ c a g, AccountInfoGetter.create c a true true = .ok g →
      g.built_url = URL_ACCOUNTS ++ url_encode a ++ "?fields=positions,orders") ∧
    (∀ c a g, AccountInfoGetter.create c a false true = .ok g →
      g.built_url = URL_ACCOUNTS ++ url_encode a ++ "?fields=orders") := by
  refine ⟨?_, ?_, ?_, ?_⟩
  · intro c a g h
    unfold AccountInfoGetter.create at h
    split at h
    · simp at h
    · injection h with h2
      subst h2
      show URL_ACCOUNTS ++ url_encode a ++ "" = _
      exact string_append_empty _
  · intro c a g h
    unfold AccountInfoGetter.create at h
    split at h
    · simp at h
    · injection h with h2
      subst h2
      rfl
  · intro c a g h
    unfold AccountInfoGetter.create at h
    split at h
    · simp at h
    · injection h with h2
      subst h2
      rfl
  · intro c a g h
    unfold AccountInfoGetter.create at h
    split at h
    · simp at h
    · injection h with h2
      subst h2
      rfl

/-- Witness for C5 at a concrete input: the getter for account "A1" with
positions on and orders off carries the `fields=positions` query. -/
theorem C5_accountinfo_fields_witness :
    ({ creds := (), account_id := "A1", positions := true, orders := false,
       built_url := "/accounts/A1?fields=positions" } :
      AccountInfoGetter).built_url =
      URL_ACCOUNTS ++ url_encode "A1" ++ "?fields=positions" :=
  C5_accountinfo_fields.2.1 () "A1" _ rfl

/-- Claim C6: constructing any account-scoped getter variant with an
empty `account_id` fails with the invalid-argument error, and with any
non-empty `account_id` (the variant's other fields being valid)
construction succeeds. -/
theorem C6_account_id_required :
    (∀ c p o, AccountInfoGetter.create c "" p o =
      .error (.valueException "account_id is empty")) ∧
    (∀ c a p o, a ≠ "" → exOk (AccountInfoGetter.create c a p o) = true) ∧
    (∀ c, PreferencesGetter.create c "" =
      .error (.valueException "account_id is empty")) ∧
    (∀ c a, a ≠ "" → exOk (PreferencesGetter.create c a) = true) ∧
    (∀ c, StreamerSubscriptionKeysGetter.create c "" =
      .error (.valueException "account_id is empty")) ∧
    (∀ c a, a ≠ "" →
      exOk (StreamerSubscriptionKeysGetter.create c a) = true) ∧
    (∀ c tt sy sd ed, TransactionHistoryGetter.create c "" tt sy sd ed =
      .error (.valueException "account_id is empty")) ∧
    (∀ c a tt sy sd ed, a ≠ "" →
      (sd = "" ∨ is_valid_iso8601_datetime sd = true) →
      (ed = "" ∨ is_valid_iso8601_datetime ed = true) →
      exOk (TransactionHistoryGetter.create c a tt sy sd ed) = true) ∧
    (∀ c tid, IndividualTransactionHistoryGetter.create c "" tid =
      .error (.valueException "account_id is empty")) ∧
    (∀ c a tid, a ≠ "" → tid ≠ "" →
      exOk (IndividualTransactionHistoryGetter.create c a tid) = true) ∧
    (∀ c oid, OrderGetter.create c "" oid =
      .error (.valueException "account_id is empty")) ∧
    (∀ c a oid, a ≠ "" → oid ≠ "" →
      exOk (OrderGetter.create c a oid) = true) ∧
    (∀ c n f t os, OrdersGetter.create c "" n f t os =
      .error (.valueException "account_id is empty")) ∧
    (∀ c a n f t os, a ≠ "" → 1 ≤ n → is_valid_iso8601_datetime f = true →
      is_valid_iso8601_datetime t = true →
      exOk (OrdersGetter.create c a n f t os) = true) := by
  refine ⟨?_, ?_, ?_, ?_, ?_, ?_, ?_, ?_, ?_, ?_, ?_, ?_, ?_, ?_⟩
  · intro c p o
    rfl
  · intro c a p o ha
    unfold AccountInfoGetter.create
    rw [if_neg ha]
    rfl
  · intro c
    rfl
  · intro c a ha
    unfold PreferencesGetter.create
    rw [if_neg ha]
    rfl
  · intro c
    rfl
  · intro c a ha
    unfold StreamerSubscriptionKeysGetter.create
    rw [if_neg ha]
    rfl
  · intro c tt sy sd ed
    rfl
  · intro c a tt sy sd ed ha hsov heov
    have hns : ¬(sd ≠ "" ∧ is_valid_iso8601_datetime sd = false) := by
      rcases hsov with h | h <;> simp [h]
    have hne : ¬(ed ≠ "" ∧ is_valid_iso8601_datetime ed = false) := by
      rcases heov with h | h <;> simp [h]
    unfold TransactionHistoryGetter.create
    rw [if_neg ha, if_neg hns, if_neg hne]
    rfl
  · intro c tid
    rfl
  · intro c a tid ha htid
    unfold IndividualTransactionHistoryGetter.create
    rw [if_neg ha, if_neg htid]
    rfl
  · intro c oid
    rfl
  · intro c a oid ha hoid
    unfold OrderGetter.create
    rw [if_neg ha, if_neg hoid]
    rfl
  · intro c n f t os
    rfl
  · intro c a n f t os ha hn hf ht
    unfold OrdersGetter.create
    rw [if_neg ha, if_neg (by omega : ¬(n < 1)), if_neg (by simp [hf]),
      if_neg (by simp [ht])]
    rfl

/-- Witness for C6 at a concrete input: constructing the individual
transaction getter for account "A1" and transaction "T1" succeeds. -/
theorem C6_account_id_required_witness :
    exOk (IndividualTransactionHistoryGetter.create () "A1" "T1") = true :=
  C6_account_id_required.2.2.2.2.2.2.2.2.2.1 () "A1" "T1" (by decide)
    (by decide)

/-- Claim C7: the transaction-history symbol is always stored upper-cased
— at construction and through the symbol setter — and the stored
(upper-cased) symbol is what the built query renders in its `symbol`
parameter. -/
theorem C7_symbol_uppercased :
    (∀ c a tt sy sd ed g,
      TransactionHistoryGetter.create c a tt sy sd ed = .ok g →
      g.get_symbol = toupper sy) ∧
    (∀ (g : TransactionHistoryGetter) sy,
      ((TransactionHistoryGetter.set_symbol g sy).2).get_symbol =
        toupper sy) ∧
    (∀ c a tt sy g, toupper sy ≠ "" →
      TransactionHistoryGetter.create c a tt sy "" "" = .ok g →
      g.built_url = URL_ACCOUNTS ++ url_encode a ++ "/transactions?" ++
        joinWith ["type=" ++ url_encode (TransactionType.toString tt),
                  "symbol=" ++ url_encode (toupper sy)] '&') := by
  refine ⟨?_, ?_, ?_⟩
  · intro c a tt sy sd ed g h
    unfold TransactionHistoryGetter.create at h
    repeat' split at h
    all_goals simp at h
    subst h
    rfl
  · intro g sy
    rfl
  · intro c a tt sy g hsy h
    unfold TransactionHistoryGetter.create at h
    split at h
    · simp at h
    · rw [if_neg (by simp), if_neg (by simp)] at h
      injection h with h2
      subst h2
      show URL_ACCOUNTS ++ url_encode a ++ "/transactions?" ++
        build_encoded_query_str
          ([("type", TransactionType.toString tt)] ++
            (if toupper sy ≠ "" then [("symbol", toupper sy)] else []) ++
            (if ("" : String) ≠ "" then [("startDate", ("" : String))] else []) ++
            (if ("" : String) ≠ "" then [("endDate", ("" : String))] else [])) = _
      rw [if_pos hsy, if_neg (by decide : ¬(("" : String) ≠ "")),
        if_neg (by decide : ¬(("" : String) ≠ ""))]
      simp only [List.append_nil, List.singleton_append]
      rw [beqs_two _ _ _ _ (transactionType_toString_ne_empty tt) hsy]
      have e1 : url_encode "type" ++ "=" ++
            url_encode (TransactionType.toString tt) =
          "type=" ++ url_encode (TransactionType.toString tt) :=
        append_left_congr _ (by decide)
      have e2 : url_encode "symbol" ++ "=" ++ url_encode (toupper sy) =
          "symbol=" ++ url_encode (toupper sy) :=
        append_left_congr _ (by decide)
      rw [e1, e2]

/-- Witness for C7 at a concrete input: setting symbol "aapl" on a
concrete transaction-history getter stores "AAPL". -/
theorem C7_symbol_uppercased_witness :
    ((TransactionHistoryGetter.set_symbol
      { creds := (), account_id := "ABC123", transaction_type := .all,
        symbol := "", start_date := "", end_date := "",
        built_url := "/accounts/ABC123/transactions?type=ALL" }
      "aapl").2).get_symbol = "AAPL" :=
  C7_symbol_uppercased.2.1 _ "aapl"

/-- Claim C8: the user-principals URL is the base path plus a `fields`
parameter that comma-joins exactly the flags that are true, in the fixed
order streamerSubscriptionKeys, streamerConnectionInfo, preferences,
surrogateIds, with the whole query (and the question mark) omitted when
every flag is false — the getter's URL refines the spec's own wording
`userPrincipalsUrlSpec`. -/
theorem C8_userprincipals_fields :
    ∀ c k i p s g, UserPrincipalsGetter.create c k i p s = .ok g →
      g.built_url = userPrincipalsUrlSpec k i p s := by
  intro c k i p s g h
  injection h with h2
  subst h2
  cases k <;> cases i <;> cases p <;> cases s <;> rfl

/-- Witness for C8 at a concrete input: with the first and third flags
set, the built URL carries
`fields=streamerSubscriptionKeys,preferences`. -/
theorem C8_userprincipals_fields_witness :
    ({ creds := (), streamer_subscription_keys := true,
       streamer_connection_info := false, preferences := true,
       surrogate_ids := false,
       built_url :=
         "/userprincipals?fields=streamerSubscriptionKeys,preferences" } :
      UserPrincipalsGetter).built_url =
      userPrincipalsUrlSpec true false true false :=
  C8_userprincipals_fields () true false true false _ rfl

/-- Claim C9: at every operation that sets `transaction_type` or
`order_status_type` through the ABI — single-field set and creation — an
integer that does not map to a declared enum variant is rejected with
the invalid-enum error before any state mutation: the setter returns the
unchanged state and creation produces no object; out-of-range values are
never clamped or coerced. -/
theorem C9_enum_membership_checked :
    (∀ (g : TransactionHistoryGetter) i, TransactionType.fromInt i = none →
      TransactionHistoryGetter_SetTransactionType_ABI g i =
        (.error (.invalidEnum "TransactionType" i), g)) ∧
    (∀ (g : OrdersGetter) i, OrderStatusType.fromInt i = none →
      OrdersGetter_SetOrderStatusType_ABI g i =
        (.error (.invalidEnum "OrderStatusType" i), g)) ∧
    (∀ c aid i sy sd ed, TransactionType.fromInt i = none →
      TransactionHistoryGetter_Create_ABI (some c) aid i sy sd ed true =
        .error (.invalidEnum "TransactionType" i)) ∧
    (∀ c aid n f t i, OrderStatusType.fromInt i = none →
      OrdersGetter_Create_ABI (some c) (some aid) n (some f) (some t) i true =
        .error (.invalidEnum "OrderStatusType" i)) := by
  refine ⟨?_, ?_, ?_, ?_⟩
  · intro g i h
    unfold TransactionHistoryGetter_SetTransactionType_ABI
    rw [h]
  · intro g i h
    unfold OrdersGetter_SetOrderStatusType_ABI
    rw [h]
  · intro c aid i sy sd ed h
    unfold TransactionHistoryGetter_Create_ABI
    rw [h]
    rfl
  · intro c aid n f t i h
    unfold OrdersGetter_Create_ABI
    rw [h]
    rfl

/-- Witness for C9 at a concrete input: the ABI transaction-type setter
rejects the out-of-range integer -1 and leaves the getter unchanged. -/
theorem C9_enum_membership_checked_witness :
    TransactionHistoryGetter_SetTransactionType_ABI
      { creds := (), account_id := "ABC123", transaction_type := .all,
        symbol := "", start_date := "", end_date := "",
        built_url := "/accounts/ABC123/transactions?type=ALL" } (-1) =
      (.error (.invalidEnum "TransactionType" (-1)),
       { creds := (), account_id := "ABC123", transaction_type := .all,
         symbol := "", start_date := "", end_date := "",
         built_url := "/accounts/ABC123/transactions?type=ALL" }) :=
  C9_enum_membership_checked.1 _ (-1) (by decide)

/-- Claim C10: the transaction-history create ABI treats a null pointer
for any of the optional arguments `symbol`, `start_date`, `end_date` as
the empty string (the call behaves exactly as with an empty string, so
the filter is omitted rather than the call failing), while null
credentials, a null `account_id` and a null getter handle are rejected
as null-pointer errors. -/
theorem C10_create_abi_null_handling :
    (∀ c aid tt sd ed,
      TransactionHistoryGetter_Create_ABI (some c) (some aid) tt none sd ed
          true =
        TransactionHistoryGetter_Create_ABI (some c) (some aid) tt (some "")
          sd ed true) ∧
    (∀ c aid tt sy ed,
      TransactionHistoryGetter_Create_ABI (some c) (some aid) tt sy none ed
          true =
        TransactionHistoryGetter_Create_ABI (some c) (some aid) tt sy
          (some "") ed true) ∧
    (∀ c aid tt sy sd,
      TransactionHistoryGetter_Create_ABI (some c) (some aid) tt sy sd none
          true =
        TransactionHistoryGetter_Create_ABI (some c) (some aid) tt sy sd
          (some "") true) ∧
    (∀ c tt t sy sd ed, TransactionType.fromInt tt = some t →
      TransactionHistoryGetter_Create_ABI (some c) none tt sy sd ed true =
        .error (.nullPointer "account_id")) ∧
    (∀ aid tt sy sd ed,
      TransactionHistoryGetter_Create_ABI none aid tt sy sd ed true =
        .error .nullCredentials) ∧
    (∀ pc aid tt sy sd ed,
      TransactionHistoryGetter_Create_ABI pc aid tt sy sd ed false =
        .error (.nullPointer "getter")) := by
  refine ⟨?_, ?_, ?_, ?_, ?_, ?_⟩
  · intro c aid tt sd ed
    unfold TransactionHistoryGetter_Create_ABI
    rcases TransactionType.fromInt tt with _ | t <;> rfl
  · intro c aid tt sy ed
    unfold TransactionHistoryGetter_Create_ABI
    rcases TransactionType.fromInt tt with _ | t <;> rfl
  · intro c aid tt sy sd
    unfold TransactionHistoryGetter_Create_ABI
    rcases TransactionType.fromInt tt with _ | t <;> rfl
  · intro c tt t sy sd ed h
    unfold TransactionHistoryGetter_Create_ABI
    rw [h]
    rfl
  · intro aid tt sy sd ed
    rfl
  · intro pc aid tt sy sd ed
    rfl

/-- Witness for C10 at a concrete input: with valid enum 0 and a null
account pointer, the create ABI reports the account null-pointer
error. -/
theorem C10_create_abi_null_handling_witness :
    TransactionHistoryGetter_Create_ABI (some ()) none 0 none none none
        true =
      .error (.nullPointer "account_id") :=
  C10_create_abi_null_handling.2.2.2.1 () 0 TransactionType.all none none
    none rfl
